import Mathlib

/-!
Shallow embedding of the TSMF media container core of FreeRDP-old
(`channels/drdynvc/tsmf/tsmf_media.c`) and its FFmpeg decoder backend
(`channels/drdynvc/tsmf/ffmpeg/tsmf_ffmpeg.c`), together with proofs
about the playback scheduler, the stream queues, flush, and sample
dispatch.

Modelling conventions:
* The intrusive doubly-linked lists (presentation list, a presentation's
  stream list, a stream's sample queue with head/tail pointers) are
  modelled as Lean `List`s in the same order; appending at the tail
  pointer becomes `++ [x]`, popping the head becomes a `match` on the
  list head.
* `pthread` mutexes, thread status flags and `usleep` calls have no
  bearing on the sequential data transformations proved here and are
  not part of the state.
* C truth values (`int` used as boolean, e.g. `eos`) are modelled as
  `Bool`; the source only ever stores 0 or 1 in them and tests them for
  truthiness.
* External capabilities are modelled by the values they return to the
  core at the call being analysed: the audio device by the value of
  `GetQueueLength`, the decoder (as seen from tsmf_media.c) by its
  `Decode` return code and the buffer returned by `GetDecodedData`,
  libavcodec calls by explicit oracle arguments.
* `uint64` timestamps are modelled as `Nat`; the source only compares
  and copies them, so no overflow arithmetic occurs.
-/

namespace TSMF

/-- From tsmf_constants.h (header not under src/): major media type tag
for video streams.  Only the distinctness of the tags matters to the
code modelled here. -/
def TSMF_MAJOR_TYPE_VIDEO : Nat := 1

/-- From tsmf_constants.h (header not under src/): major media type tag
for audio streams. -/
def TSMF_MAJOR_TYPE_AUDIO : Nat := 2

/-- From constants_ui.h (header not under src/): pixel format tag placed
in every video frame event (`RD_PIXFMT_I420`); used only as a tag. -/
def RD_PIXFMT_I420 : Nat := 0

/-- The audio device capability (`ITSMFAudioDevice`) as read by the
scheduler: the value its `GetQueueLength` call reports at this tick.
`Play`, `Flush` and `Free` act only on the external device. -/
structure ITSMFAudioDevice where
  queueLength : Nat
deriving Repr, DecidableEq

/-- The decoder capability (`ITSMFDecoder`) as used by
`tsmf_stream_push_sample`: `Decode` maps the pushed payload and
extension flags to the C return code (0 = success), and
`GetDecodedData` is the optional function pointer; `none` models a NULL
pointer, `some r` a function whose call returns the buffer/size pair
`r` (a `none` buffer models a NULL data pointer). -/
structure ITSMFDecoder where
  Decode : List Nat → Nat → Nat
  GetDecodedData : Option (Option (List Nat) × Nat)

/-- `struct _TSMF_SAMPLE`.  The `next` link is absorbed into the queue
list; the `stream` back-pointer is recorded as the owning stream id;
`channel_callback` is an opaque handle. -/
structure TSMF_SAMPLE where
  sample_id : Nat
  start_time : Nat
  end_time : Nat
  duration : Nat
  data_size : Nat
  data : Option (List Nat)
  stream_id : Nat
  channel_callback : Nat
deriving Repr, DecidableEq

/-- `struct _TSMF_STREAM`.  The `presentation` back-pointer is modelled
by containment in the presentation's stream list; `prev`/`next` links
and the queue's tail pointer are absorbed into the `List`s. -/
structure TSMF_STREAM where
  stream_id : Nat
  major_type : Nat
  eos : Bool
  width : Nat
  height : Nat
  decoder : Option ITSMFDecoder
  sample_queue : List TSMF_SAMPLE

/-- `struct _TSMF_PRESENTATION`.  The mutex, thread flags and
`audio_name`/`audio_device` strings (read only when loading the device)
are omitted; `prev`/`next` links live in the registry list. -/
structure TSMF_PRESENTATION where
  presentation_id : List Nat
  playback_time : Nat
  audio : Option ITSMFAudioDevice
  sample_rate : Nat
  channels : Nat
  bits_per_sample : Nat
  eos : Bool
  last_x : Nat
  last_y : Nat
  last_width : Nat
  last_height : Nat
  output_x : Nat
  output_y : Nat
  output_width : Nat
  output_height : Nat
  channel_callback : Nat
  streams : List TSMF_STREAM

/-- `tsmf_stream_pop_sample`: detach and return the queue head (NULL →
`none`); the tail-pointer maintenance of the source is implicit in the
list representation. -/
def tsmf_stream_pop_sample (stream : TSMF_STREAM) :
    Option TSMF_SAMPLE × TSMF_STREAM :=
  match stream.sample_queue with
  | [] => (none, stream)
  | s :: rest => (some s, { stream with sample_queue := rest })

/-- One stream's contribution to `has_pending_stream` in the scan loop
of `tsmf_presentation_pop_sample`: queue empty and not at end of
stream. -/
def streamPending (s : TSMF_STREAM) : Bool :=
  s.sample_queue.isEmpty && !s.eos

/-- The `has_pending_stream` flag computed by the scan loop of
`tsmf_presentation_pop_sample`.  The source computes it in the same
loop as the earliest-stream search; the loop body does not mutate the
streams, so two passes give the same result. -/
def hasPendingStream (streams : List TSMF_STREAM) : Bool :=
  streams.any streamPending

/-- The earliest-stream search of the scan loop of
`tsmf_presentation_pop_sample`: walk the stream list keeping the index
and head `start_time` of the current earliest stream; a later stream
replaces it only when its head sample's `start_time` is strictly
smaller (`earliest->head->start_time > stream->head->start_time`). -/
def earliestGo : List TSMF_STREAM → Nat → Option (Nat × Nat) → Option (Nat × Nat)
  | [], _, best => best
  | s :: rest, i, best =>
    let best' :=
      match s.sample_queue, best with
      | [], _ => best
      | h :: _, none => some (i, h.start_time)
      | h :: _, some (j, bt) =>
        if bt > h.start_time then some (i, h.start_time) else some (j, bt)
    earliestGo rest (i + 1) best'

/-- Index (in scan order) of the `earliest_stream` selected by the scan
loop, `none` when every queue is empty (`earliest_stream == NULL`). -/
def earliestIdx (streams : List TSMF_STREAM) : Option Nat :=
  (earliestGo streams 0 none).map Prod.fst

/-- The selection policy of `tsmf_presentation_pop_sample` for the
earliest stream `es`: an audio stream's head is popped unless an audio
device is attached with `GetQueueLength >= 10`; any other stream's
head is popped when no stream is pending, playback has not started, or
the playback time has reached the head's `start_time`. -/
def schedulerPops (p : TSMF_PRESENTATION) (pending : Bool)
    (es : TSMF_STREAM) : Bool :=
  if es.major_type = TSMF_MAJOR_TYPE_AUDIO then
    match p.audio with
    | none => true
    | some a => decide (a.queueLength < 10)
  else
    match es.sample_queue with
    | [] => false
    | h :: _ =>
      !pending || decide (p.playback_time = 0)
        || decide (p.playback_time ≥ h.start_time)

/-- `tsmf_presentation_pop_sample`: select the earliest stream, apply
the audio/non-audio selection policy, pop on success and advance
`playback_time` to the popped sample's `end_time` when that is larger.
Returns the popped sample (or `none`) and the updated presentation. -/
def tsmf_presentation_pop_sample (p : TSMF_PRESENTATION) :
    Option TSMF_SAMPLE × TSMF_PRESENTATION :=
  let pending := hasPendingStream p.streams
  match earliestIdx p.streams with
  | none => (none, p)
  | some i =>
    match p.streams[i]? with
    | none => (none, p)
    | some es =>
      if schedulerPops p pending es then
        let r := tsmf_stream_pop_sample es
        let streams' := p.streams.set i r.2
        let pt :=
          match r.1 with
          | some s =>
            if p.playback_time < s.end_time then s.end_time else p.playback_time
          | none => p.playback_time
        (r.1, { p with streams := streams', playback_time := pt })
      else (none, p)

/-- `tsmf_presentation_find_by_id`: first presentation in the registry
list whose GUID bytes compare equal (`memcmp == 0`). -/
def tsmf_presentation_find_by_id (registry : List TSMF_PRESENTATION)
    (guid : List Nat) : Option TSMF_PRESENTATION :=
  registry.find? (fun q => q.presentation_id == guid)

/-- The zero-initialised presentation built by `tsmf_presentation_new`
(`malloc` + `memset 0`, then GUID and callback are filled in). -/
def freshPresentation (guid : List Nat) (cb : Nat) : TSMF_PRESENTATION :=
  { presentation_id := guid
    playback_time := 0
    audio := none
    sample_rate := 0
    channels := 0
    bits_per_sample := 0
    eos := false
    last_x := 0, last_y := 0, last_width := 0, last_height := 0
    output_x := 0, output_y := 0, output_width := 0, output_height := 0
    channel_callback := cb
    streams := [] }

/-- `tsmf_presentation_new`: fail (returning NULL and leaving the
registry untouched) when the GUID is already present, otherwise append
a zero-initialised presentation at the registry tail. -/
def tsmf_presentation_new (registry : List TSMF_PRESENTATION)
    (guid : List Nat) (cb : Nat) :
    Option TSMF_PRESENTATION × List TSMF_PRESENTATION :=
  match tsmf_presentation_find_by_id registry guid with
  | some _ => (none, registry)
  | none =>
    let p := freshPresentation guid cb
    (some p, registry ++ [p])

/-- `tsmf_stream_find_by_id`: first stream of the presentation with the
given id. -/
def tsmf_stream_find_by_id (p : TSMF_PRESENTATION) (stream_id : Nat) :
    Option TSMF_STREAM :=
  p.streams.find? (fun s => s.stream_id == stream_id)

/-- The zero-initialised stream built by `tsmf_stream_new` (`malloc` +
`memset 0`, then the id is filled in; the presentation back-pointer is
modelled by containment). -/
def freshStream (stream_id : Nat) : TSMF_STREAM :=
  { stream_id := stream_id
    major_type := 0
    eos := false
    width := 0
    height := 0
    decoder := none
    sample_queue := [] }

/-- `tsmf_stream_new`: fail (returning NULL and leaving the
presentation untouched) when the stream id already exists, otherwise
append a zero-initialised stream at the stream-list tail. -/
def tsmf_stream_new (p : TSMF_PRESENTATION) (stream_id : Nat) :
    Option TSMF_STREAM × TSMF_PRESENTATION :=
  match tsmf_stream_find_by_id p stream_id with
  | some _ => (none, p)
  | none =>
    let s := freshStream stream_id
    (some s, { p with streams := p.streams ++ [s] })

/-- `tsmf_stream_end`: mark the stream and its presentation as
end-of-stream (`stream->eos = 1; stream->presentation->eos = 1`).  The
stream is addressed by its id inside the owning presentation. -/
def tsmf_stream_end (p : TSMF_PRESENTATION) (stream_id : Nat) :
    TSMF_PRESENTATION :=
  { p with
    streams := p.streams.map
      (fun s => if s.stream_id = stream_id then { s with eos := true } else s)
    eos := true }

/-- The drain loop of `tsmf_stream_flush` / `tsmf_stream_free`:
`while (head) { pop; free; }` leaves whatever queue the loop terminates
with (structurally, the empty queue). -/
def drainQueue : List TSMF_SAMPLE → List TSMF_SAMPLE
  | [] => []
  | _ :: rest => drainQueue rest

/-- `tsmf_stream_flush`: drain and free every queued sample, then clear
the stream's end-of-stream flag. -/
def tsmf_stream_flush (s : TSMF_STREAM) : TSMF_STREAM :=
  { s with sample_queue := drainQueue s.sample_queue, eos := false }

/-- `tsmf_presentation_flush`: flush every stream, flush the audio sink
(an external effect on the device), and clear the presentation's
end-of-stream flag. -/
def tsmf_presentation_flush (p : TSMF_PRESENTATION) : TSMF_PRESENTATION :=
  { p with streams := p.streams.map tsmf_stream_flush, eos := false }

/-- `tsmf_stream_push_sample`: run the attached decoder's `Decode` on
the payload (`ret` stays 1 when no decoder is attached); on a non-zero
return drop the unit, leaving the stream untouched; on success build a
sample carrying the buffer returned by `GetDecodedData` (NULL data and
size 0 when that function pointer is NULL) and append it at the queue
tail.  `data_size` is `data.length`. -/
def tsmf_stream_push_sample (stream : TSMF_STREAM) (cb : Nat)
    (sample_id start_time end_time duration extensions : Nat)
    (data : List Nat) : TSMF_STREAM :=
  let ret : Nat :=
    match stream.decoder with
    | some d => d.Decode data extensions
    | none => 1
  if ret ≠ 0 then stream
  else
    let decoded : Option (List Nat) × Nat :=
      match stream.decoder with
      | some d =>
        match d.GetDecodedData with
        | some r => r
        | none => (none, 0)
      | none => (none, 0)
    let sample : TSMF_SAMPLE :=
      { sample_id := sample_id
        start_time := start_time
        end_time := end_time
        duration := duration
        data_size := decoded.2
        data := decoded.1
        stream_id := stream.stream_id
        channel_callback := cb }
    { stream with sample_queue := stream.sample_queue ++ [sample] }

/-- The sample that a successful `tsmf_stream_push_sample` call on a
stream with decoder `d` appends (used to state the queue effect). -/
def pushedSample (stream : TSMF_STREAM) (d : ITSMFDecoder) (cb : Nat)
    (sample_id start_time end_time duration : Nat) : TSMF_SAMPLE :=
  let decoded : Option (List Nat) × Nat :=
    match d.GetDecodedData with
    | some r => r
    | none => (none, 0)
  { sample_id := sample_id
    start_time := start_time
    end_time := end_time
    duration := duration
    data_size := decoded.2
    data := decoded.1
    stream_id := stream.stream_id
    channel_callback := cb }

/-- A notification handed to `tsmf_push_event`: either the
redraw-previous-region event of
`tsmf_presentation_restore_last_video_frame` or the video-frame event
of `tsmf_sample_playback_video`. -/
inductive RD_EVENT where
  | redraw (x y width height : Nat)
  | video_frame (frame_data : List Nat) (frame_size frame_pixfmt : Nat)
      (frame_width frame_height : Nat) (x y width height : Nat)
deriving Repr, DecidableEq

/-- `tsmf_presentation_restore_last_video_frame`: when the recorded
last region has nonzero width and height, emit a redraw event for it
and reset the recorded region to zero; otherwise do nothing.  Whether
`tsmf_push_event` accepts the event only decides who frees it. -/
def tsmf_presentation_restore_last_video_frame (p : TSMF_PRESENTATION) :
    List RD_EVENT × TSMF_PRESENTATION :=
  if p.last_width ≠ 0 ∧ p.last_height ≠ 0 then
    ([RD_EVENT.redraw p.last_x p.last_y p.last_width p.last_height],
     { p with last_x := 0, last_y := 0, last_width := 0, last_height := 0 })
  else ([], p)

/-- The region-changed test of `tsmf_sample_playback_video`: last
delivered region differs from the current output region in some
coordinate. -/
def regionChanged (p : TSMF_PRESENTATION) : Bool :=
  p.last_x != p.output_x || p.last_y != p.output_y
    || p.last_width != p.output_width || p.last_height != p.output_height

/-- `tsmf_sample_playback_video`: with no payload, do nothing.  With a
payload: restore the previous region when the target region changed,
emit the video-frame event (payload ownership moves into the event:
`sample->data = NULL; sample->data_size = 0`), and record the delivered
region.  `stream` is the sample's owning stream (`sample->stream`),
read for its width/height.  Returns the emitted events in order, the
updated presentation and the updated sample. -/
def tsmf_sample_playback_video (sample : TSMF_SAMPLE) (stream : TSMF_STREAM)
    (p : TSMF_PRESENTATION) :
    List RD_EVENT × TSMF_PRESENTATION × TSMF_SAMPLE :=
  match sample.data with
  | none => ([], p, sample)
  | some d =>
    let r :=
      if regionChanged p then tsmf_presentation_restore_last_video_frame p
      else ([], p)
    let p1 := r.2
    let vevent := RD_EVENT.video_frame d sample.data_size RD_PIXFMT_I420
      stream.width stream.height
      p1.output_x p1.output_y p1.output_width p1.output_height
    let p2 := { p1 with
      last_x := p1.output_x
      last_y := p1.output_y
      last_width := p1.output_width
      last_height := p1.output_height }
    (r.1 ++ [vevent], p2,
     { sample with data := none, data_size := 0 })

/-! ### FFmpeg decoder backend (`tsmf_ffmpeg.c`)

The libavcodec calls are external; each is modelled by an oracle value
describing what the library reported at that call.  Allocated buffers
are tracked by their byte capacity (`Option Nat`, `none` = NULL). -/

/-- `AVMEDIA_TYPE_VIDEO` (compat define in the source for old FFmpeg). -/
def AVMEDIA_TYPE_VIDEO : Nat := 0

/-- `AVMEDIA_TYPE_AUDIO` (compat define in the source for old FFmpeg). -/
def AVMEDIA_TYPE_AUDIO : Nat := 1

/-- `AVCODEC_MAX_AUDIO_FRAME_SIZE` from libavcodec. -/
def AVCODEC_MAX_AUDIO_FRAME_SIZE : Nat := 192000

/-- `struct _TSMFFFmpegDecoder`.  The codec/codec-context/frame fields
belong to libavcodec and are not modelled; `decoded_data` records the
capacity of the malloc'd decoded buffer (`none` = NULL pointer). -/
structure TSMFFFmpegDecoder where
  media_type : Nat
  decoded_data : Option Nat
  decoded_size : Nat
  decoded_size_max : Nat
deriving Repr, DecidableEq

/-- Results the libavcodec calls report during one `Decode` call:
`video_len`/`video_decoded` are the return value and got-picture flag
of `avcodec_decode_video2`, `video_picture_size` the result of
`avpicture_get_size`, and `audio_calls` the `(len, frame_size)` result
of each successive `avcodec_decode_audio3` invocation. -/
structure LibavOracle where
  video_len : Int
  video_decoded : Bool
  video_picture_size : Nat
  audio_calls : List (Int × Int)
deriving Repr, DecidableEq

/-- `tsmf_ffmpeg_decode_video`: fail (ret 1) when the library reports a
negative length or no decoded picture; otherwise allocate and fill a
buffer of the picture size. -/
def tsmf_ffmpeg_decode_video (m : TSMFFFmpegDecoder) (len : Int)
    (decoded : Bool) (psize : Nat) : Nat × TSMFFFmpegDecoder :=
  if len < 0 then (1, m)
  else if !decoded then (1, m)
  else (0, { m with decoded_size := psize, decoded_data := some psize })

/-- The `while (src_size > 0)` loop of `tsmf_ffmpeg_decode_audio`; one
oracle entry per `avcodec_decode_audio3` invocation (a finite trace of
the library's answers describes a terminating run).  Buffer sizes are
`uint32`, so the doubling reallocation wraps modulo 2^32; `src_size`
decreases by the consumed length (the library never consumes more than
it was given). -/
def tsmf_ffmpeg_decode_audio_loop :
    List (Int × Int) → Nat → TSMFFFmpegDecoder → TSMFFFmpegDecoder
  | _, 0, m => m
  | [], _, m => m
  | (len, frame_size) :: rest, src_size, m =>
    let m :=
      if m.decoded_size_max - m.decoded_size < AVCODEC_MAX_AUDIO_FRAME_SIZE then
        { m with
          decoded_size_max := m.decoded_size_max * 2 % 4294967296
          decoded_data := some (m.decoded_size_max * 2 % 4294967296) }
      else m
    if len ≤ 0 ∨ frame_size ≤ 0 then m
    else
      tsmf_ffmpeg_decode_audio_loop rest (src_size - len.toNat)
        { m with decoded_size := m.decoded_size + frame_size.toNat }

/-- `tsmf_ffmpeg_decode_audio`: initialise the output buffer, run the
decode loop over the padded input, free the buffer when nothing was
decoded — and report success (return 0) in every case. -/
def tsmf_ffmpeg_decode_audio (m : TSMFFFmpegDecoder) (data_size : Nat)
    (calls : List (Int × Int)) : Nat × TSMFFFmpegDecoder :=
  let m1 :=
    if m.decoded_size_max = 0 then
      { m with decoded_size_max := AVCODEC_MAX_AUDIO_FRAME_SIZE }
    else m
  let m2 := { m1 with decoded_data := some m1.decoded_size_max }
  let m3 := tsmf_ffmpeg_decode_audio_loop calls data_size m2
  let m4 := if m3.decoded_size = 0 then { m3 with decoded_data := none } else m3
  (0, m4)

/-- `tsmf_ffmpeg_decode`: clear any previously decoded unit, then
dispatch on the media type (unknown types fail).  The input bytes and
extension flags flow only into the libavcodec calls, whose behaviour
is the oracle. -/
def tsmf_ffmpeg_decode (m : TSMFFFmpegDecoder) (o : LibavOracle)
    (data_size : Nat) : Nat × TSMFFFmpegDecoder :=
  let m0 := { m with decoded_data := none, decoded_size := 0 }
  if m0.media_type = AVMEDIA_TYPE_VIDEO then
    tsmf_ffmpeg_decode_video m0 o.video_len o.video_decoded o.video_picture_size
  else if m0.media_type = AVMEDIA_TYPE_AUDIO then
    tsmf_ffmpeg_decode_audio m0 data_size o.audio_calls
  else (1, m0)

/-- `tsmf_ffmpeg_get_decoded_data`: hand the decoded buffer and its
size to the caller and clear the decoder's internal references. -/
def tsmf_ffmpeg_get_decoded_data (m : TSMFFFmpegDecoder) :
    (Option Nat × Nat) × TSMFFFmpegDecoder :=
  ((m.decoded_data, m.decoded_size),
   { m with decoded_data := none, decoded_size := 0 })

/-! ### Sequences of operations -/

/-- State reached after `n` scheduler invocations
(`tsmf_presentation_pop_sample`), discarding the popped samples. -/
def popIter : Nat → TSMF_PRESENTATION → TSMF_PRESENTATION
  | 0, p => p
  | n + 1, p => popIter n (tsmf_presentation_pop_sample p).2

/-- The arguments of one `tsmf_stream_push_sample` call. -/
structure PushArgs where
  cb : Nat
  sample_id : Nat
  start_time : Nat
  end_time : Nat
  duration : Nat
  extensions : Nat
  data : List Nat

/-- Apply a sequence of `tsmf_stream_push_sample` calls to a stream. -/
def pushSeq (s : TSMF_STREAM) (ps : List PushArgs) : TSMF_STREAM :=
  ps.foldl
    (fun st a => tsmf_stream_push_sample st a.cb a.sample_id a.start_time
      a.end_time a.duration a.extensions a.data) s

/-- Fuelled loop of successive `tsmf_stream_pop_sample` calls, stopping
at the first `none`. -/
def popSamplesFuel : Nat → TSMF_STREAM → List TSMF_SAMPLE
  | 0, _ => []
  | n + 1, s =>
    match tsmf_stream_pop_sample s with
    | (none, _) => []
    | (some x, s') => x :: popSamplesFuel n s'

/-- The samples returned by popping a stream until its queue is empty
(the queue length bounds the number of successful pops). -/
def popAll (s : TSMF_STREAM) : List TSMF_SAMPLE :=
  popSamplesFuel s.sample_queue.length s

/-! ### Concrete fixtures used by the witnesses -/

/-- An audio sample queued at time 0. -/
def wAudioSample : TSMF_SAMPLE :=
  { sample_id := 1, start_time := 0, end_time := 10, duration := 10
    data_size := 2, data := some [5, 6], stream_id := 1, channel_callback := 0 }

/-- An audio stream holding `wAudioSample`. -/
def wAudioStream : TSMF_STREAM :=
  { stream_id := 1, major_type := TSMF_MAJOR_TYPE_AUDIO, eos := false
    width := 0, height := 0, decoder := none, sample_queue := [wAudioSample] }

/-- A video sample starting at time 5. -/
def wVideoSample : TSMF_SAMPLE :=
  { sample_id := 2, start_time := 5, end_time := 9, duration := 4
    data_size := 1, data := some [7], stream_id := 2, channel_callback := 0 }

/-- A video stream holding `wVideoSample`. -/
def wVideoStream : TSMF_STREAM :=
  { stream_id := 2, major_type := TSMF_MAJOR_TYPE_VIDEO, eos := false
    width := 4, height := 4, decoder := none, sample_queue := [wVideoSample] }

/-- An audio stream with an empty queue that has not reached
end-of-stream (a pending stream). -/
def wEmptyAudioStream : TSMF_STREAM :=
  { stream_id := 3, major_type := TSMF_MAJOR_TYPE_AUDIO, eos := false
    width := 0, height := 0, decoder := none, sample_queue := [] }

/-- A presentation whose audio sink reports 12 queued samples. -/
def wPresBlocked : TSMF_PRESENTATION :=
  { freshPresentation [] 0 with audio := some ⟨12⟩, streams := [wAudioStream] }

/-- A presentation whose audio sink reports 3 queued samples. -/
def wPresFree : TSMF_PRESENTATION :=
  { freshPresentation [] 0 with audio := some ⟨3⟩, streams := [wAudioStream] }

/-- A presentation with a pending audio stream and a video stream whose
head sample starts after the current playback time. -/
def wPresVideo : TSMF_PRESENTATION :=
  { freshPresentation [] 0 with
    playback_time := 3
    streams := [wEmptyAudioStream, wVideoStream] }

/-- A registry holding one presentation with GUID `[1, 2]`. -/
def wRegistry : List TSMF_PRESENTATION := [freshPresentation [1, 2] 0]

/-- A presentation that already owns stream id 2. -/
def wPresWithStream : TSMF_PRESENTATION :=
  { freshPresentation [] 0 with streams := [wVideoStream] }

/-- A decoder whose decode step always succeeds and yields a 2-byte
buffer. -/
def wDecoderOk : ITSMFDecoder :=
  { Decode := fun _ _ => 0, GetDecodedData := some (some [9, 9], 2) }

/-- A decoder whose decode step always fails. -/
def wDecoderFail : ITSMFDecoder :=
  { Decode := fun _ _ => 1, GetDecodedData := some (none, 0) }

/-- A stream with no decoder attached. -/
def wStreamNoDec : TSMF_STREAM := freshStream 7

/-- A stream with the always-succeeding decoder. -/
def wStreamOk : TSMF_STREAM := { freshStream 8 with decoder := some wDecoderOk }

/-- A stream with the always-failing decoder. -/
def wStreamFail : TSMF_STREAM :=
  { freshStream 9 with decoder := some wDecoderFail }

/-- First pushed unit: `start_time` 0. -/
def wPushA : PushArgs :=
  { cb := 0, sample_id := 1, start_time := 0, end_time := 5, duration := 5
    extensions := 0, data := [1] }

/-- Second pushed unit: `start_time` 5. -/
def wPushB : PushArgs :=
  { cb := 0, sample_id := 2, start_time := 5, end_time := 9, duration := 4
    extensions := 0, data := [2] }

/-- A fresh ffmpeg audio decoder state. -/
def wFFmpegAudio : TSMFFFmpegDecoder :=
  { media_type := AVMEDIA_TYPE_AUDIO, decoded_data := none
    decoded_size := 0, decoded_size_max := 0 }

/-- A fresh ffmpeg video decoder state. -/
def wFFmpegVideo : TSMFFFmpegDecoder :=
  { media_type := AVMEDIA_TYPE_VIDEO, decoded_data := none
    decoded_size := 0, decoded_size_max := 0 }

/-- A libav trace in which the first audio decode call fails. -/
def wOracleFail : LibavOracle :=
  { video_len := 0, video_decoded := false, video_picture_size := 0
    audio_calls := [(0, 0)] }

/-- A libav trace in which a video frame is decoded with picture size
100. -/
def wOracleOk : LibavOracle :=
  { video_len := 3, video_decoded := true, video_picture_size := 100
    audio_calls := [] }

/-- A presentation with no previously delivered frame (zero last
region) and a nonzero target region: the regions differ, yet no redraw
can be emitted. -/
def cPres9 : TSMF_PRESENTATION :=
  { freshPresentation [] 0 with
    output_width := 4
    output_height := 4 }

/-- A presentation with a previously delivered nonzero region that
differs from the target region. -/
def cPres9' : TSMF_PRESENTATION :=
  { freshPresentation [] 0 with
    last_x := 1
    last_y := 1
    last_width := 2
    last_height := 2
    output_width := 4
    output_height := 4 }

/-- A video sample carrying a 3-byte payload. -/
def cSample9 : TSMF_SAMPLE :=
  { sample_id := 5, start_time := 0, end_time := 1, duration := 1
    data_size := 3, data := some [1, 2, 3], stream_id := 2
    channel_callback := 0 }

/-- Whether an event is the redraw-previous-region notification. -/
def eventIsRedraw : RD_EVENT → Bool
  | RD_EVENT.redraw _ _ _ _ => true
  | RD_EVENT.video_frame _ _ _ _ _ _ _ _ _ => false

/-! ### Basic lemmas -/

/-- The head returned by `tsmf_stream_pop_sample` is the queue head. -/
lemma tsmf_stream_pop_sample_fst (s : TSMF_STREAM) :
    (tsmf_stream_pop_sample s).1 = s.sample_queue.head? := by
  unfold tsmf_stream_pop_sample
  cases s.sample_queue <;> rfl

/-- The drain loop of the flush path empties the queue. -/
lemma drainQueue_eq_nil (q : List TSMF_SAMPLE) : drainQueue q = [] := by
  induction q with
  | nil => rfl
  | cons x rest ih => simpa [drainQueue] using ih

/-- `tsmf_stream_flush` in closed form: empty queue, cleared eos. -/
lemma tsmf_stream_flush_eq (s : TSMF_STREAM) :
    tsmf_stream_flush s = { s with sample_queue := [], eos := false } := by
  simp [tsmf_stream_flush, drainQueue_eq_nil]

/-- Successive pops return exactly the queue, in order. -/
lemma popAll_eq_queue (s : TSMF_STREAM) : popAll s = s.sample_queue := by
  suffices h : ∀ (q : List TSMF_SAMPLE) (t : TSMF_STREAM),
      t.sample_queue = q → popSamplesFuel q.length t = q by
    exact h s.sample_queue s rfl
  intro q
  induction q with
  | nil => intro t _; rfl
  | cons x rest ih =>
    intro t ht
    simp only [List.length_cons, popSamplesFuel, tsmf_stream_pop_sample, ht]
    exact congrArg (x :: ·) (ih _ rfl)

/-- Every scheduler invocation either pops nothing and leaves
`playback_time` untouched, or pops a sample and sets `playback_time`
to its `end_time` exactly when that exceeds the old value. -/
lemma pop_sample_playback_spec (p : TSMF_PRESENTATION) :
    ((tsmf_presentation_pop_sample p).1 = none ∧
      (tsmf_presentation_pop_sample p).2.playback_time = p.playback_time) ∨
    (∃ s, (tsmf_presentation_pop_sample p).1 = some s ∧
      (tsmf_presentation_pop_sample p).2.playback_time
        = if p.playback_time < s.end_time then s.end_time
          else p.playback_time) := by
  unfold tsmf_presentation_pop_sample
  cases h1 : earliestIdx p.streams with
  | none => exact Or.inl ⟨rfl, rfl⟩
  | some i =>
    dsimp only
    cases h2 : p.streams[i]? with
    | none => exact Or.inl ⟨rfl, rfl⟩
    | some es =>
      dsimp only
      cases hd : schedulerPops p (hasPendingStream p.streams) es with
      | false =>
        simp only [hd, Bool.false_eq_true, if_false]
        exact Or.inl ⟨trivial, trivial⟩
      | true =>
        simp only [hd, if_true]
        obtain ⟨sid, mt, seos, sw, sh, sdec, sq⟩ := es
        cases sq with
        | nil => exact Or.inl ⟨rfl, rfl⟩
        | cons x rest => exact Or.inr ⟨x, rfl, rfl⟩

/-- One scheduler invocation never decreases `playback_time`. -/
lemma pop_sample_playback_mono (p : TSMF_PRESENTATION) :
    p.playback_time ≤ (tsmf_presentation_pop_sample p).2.playback_time := by
  rcases pop_sample_playback_spec p with ⟨_, h⟩ | ⟨s, _, h⟩
  · omega
  · rw [h]; split <;> omega

/-- When the selection policy accepts, the scheduler returns the head
sample of the earliest stream. -/
lemma pop_at_earliest (p : TSMF_PRESENTATION) (i : Nat) (es : TSMF_STREAM)
    (h1 : earliestIdx p.streams = some i) (h2 : p.streams[i]? = some es)
    (hd : schedulerPops p (hasPendingStream p.streams) es = true) :
    (tsmf_presentation_pop_sample p).1 = es.sample_queue.head? := by
  unfold tsmf_presentation_pop_sample
  rw [h1]
  dsimp only
  rw [h2]
  dsimp only
  rw [hd]
  simpa using tsmf_stream_pop_sample_fst es

/-- When the selection policy rejects, the scheduler returns nothing
and leaves the presentation untouched. -/
lemma pop_blocked (p : TSMF_PRESENTATION) (i : Nat) (es : TSMF_STREAM)
    (h1 : earliestIdx p.streams = some i) (h2 : p.streams[i]? = some es)
    (hd : schedulerPops p (hasPendingStream p.streams) es = false) :
    tsmf_presentation_pop_sample p = (none, p) := by
  unfold tsmf_presentation_pop_sample
  rw [h1]
  dsimp only
  rw [h2]
  dsimp only
  rw [hd]
  simp

/-- Policy value for an audio earliest stream with a backed-up sink. -/
lemma schedulerPops_audio_blocked (p : TSMF_PRESENTATION) (pending : Bool)
    (es : TSMF_STREAM) (a : ITSMFAudioDevice)
    (h3 : es.major_type = TSMF_MAJOR_TYPE_AUDIO)
    (ha : p.audio = some a) (hq : 10 ≤ a.queueLength) :
    schedulerPops p pending es = false := by
  unfold schedulerPops
  rw [if_pos h3, ha]
  simp
  omega

/-- Policy value for an audio earliest stream with no sink or a sink
that is not backed up. -/
lemma schedulerPops_audio_free (p : TSMF_PRESENTATION) (pending : Bool)
    (es : TSMF_STREAM)
    (h3 : es.major_type = TSMF_MAJOR_TYPE_AUDIO)
    (ha : p.audio = none ∨ ∃ a, p.audio = some a ∧ a.queueLength < 10) :
    schedulerPops p pending es = true := by
  unfold schedulerPops
  rw [if_pos h3]
  rcases ha with ha | ⟨a, ha, hlt⟩ <;> rw [ha]
  simpa using hlt

/-- Policy value for a non-audio earliest stream with head sample
`hs`. -/
lemma schedulerPops_nonaudio (p : TSMF_PRESENTATION) (pending : Bool)
    (es : TSMF_STREAM) (hs : TSMF_SAMPLE) (rest : List TSMF_SAMPLE)
    (h3 : es.major_type ≠ TSMF_MAJOR_TYPE_AUDIO)
    (hq : es.sample_queue = hs :: rest) :
    schedulerPops p pending es
      = (!pending || decide (p.playback_time = 0)
          || decide (p.playback_time ≥ hs.start_time)) := by
  unfold schedulerPops
  rw [if_neg h3, hq]

/-- The appended sample does not depend on the pushing stream's queue. -/
lemma pushedSample_queue_irrel (s : TSMF_STREAM) (q : List TSMF_SAMPLE)
    (d : ITSMFDecoder) (cb sample_id start_time end_time duration : Nat) :
    pushedSample { s with sample_queue := q } d cb sample_id start_time
        end_time duration
      = pushedSample s d cb sample_id start_time end_time duration := rfl

/-- A successful push appends exactly `pushedSample` at the tail and
changes nothing else. -/
lemma push_sample_success_eq (s : TSMF_STREAM) (d : ITSMFDecoder)
    (cb sample_id start_time end_time duration extensions : Nat)
    (data : List Nat)
    (hdec : s.decoder = some d) (hok : d.Decode data extensions = 0) :
    tsmf_stream_push_sample s cb sample_id start_time end_time duration
        extensions data
      = { s with sample_queue := s.sample_queue
          ++ [pushedSample s d cb sample_id start_time end_time duration] } := by
  unfold tsmf_stream_push_sample pushedSample
  rw [hdec]
  simp [hok]

/-- Folding a sequence of successful pushes appends the corresponding
samples at the tail, in push order. -/
lemma pushSeq_spec (d : ITSMFDecoder) :
    ∀ (ps : List PushArgs) (s : TSMF_STREAM), s.decoder = some d →
      (∀ a ∈ ps, d.Decode a.data a.extensions = 0) →
      pushSeq s ps = { s with sample_queue := (s.sample_queue
        ++ ps.map (fun a => pushedSample s d a.cb a.sample_id a.start_time
            a.end_time a.duration)) } := by
  intro ps
  induction ps with
  | nil => intro s _ _; simp [pushSeq]
  | cons a ps ih =>
    intro s hdec hall
    have hstep := push_sample_success_eq s d a.cb a.sample_id a.start_time
      a.end_time a.duration a.extensions a.data hdec
      (hall a (List.mem_cons_self a ps))
    have hrec := ih { s with sample_queue := s.sample_queue
        ++ [pushedSample s d a.cb a.sample_id a.start_time a.end_time
            a.duration] } hdec
      (fun b hb => hall b (List.mem_cons_of_mem a hb))
    show pushSeq (tsmf_stream_push_sample s a.cb a.sample_id a.start_time
      a.end_time a.duration a.extensions a.data) ps = _
    rw [hstep, hrec]
    simp
    exact fun b _ => rfl

/-- A successful `tsmf_ffmpeg_decode_video` call fills the decoded
buffer with the picture size. -/
lemma decode_video_ok (m : TSMFFFmpegDecoder) (len : Int) (dec : Bool)
    (psize : Nat)
    (h : (tsmf_ffmpeg_decode_video m len dec psize).1 = 0) :
    (tsmf_ffmpeg_decode_video m len dec psize).2
      = { m with decoded_size := psize, decoded_data := some psize } := by
  unfold tsmf_ffmpeg_decode_video at h ⊢
  by_cases h1 : len < 0
  · rw [if_pos h1] at h
    simp at h
  · rw [if_neg h1] at h ⊢
    cases dec with
    | false => simp at h
    | true => simp

/-- `tsmf_ffmpeg_decode_audio` reports success unconditionally. -/
lemma decode_audio_ret (m : TSMFFFmpegDecoder) (ds : Nat)
    (calls : List (Int × Int)) :
    (tsmf_ffmpeg_decode_audio m ds calls).1 = 0 := rfl

/-- `tsmf_ffmpeg_decode` on a video decoder runs the video path. -/
lemma ffmpeg_decode_video_dispatch (m : TSMFFFmpegDecoder)
    (o : LibavOracle) (ds : Nat) (hv : m.media_type = AVMEDIA_TYPE_VIDEO) :
    tsmf_ffmpeg_decode m o ds
      = tsmf_ffmpeg_decode_video
          { m with decoded_data := none, decoded_size := 0 }
          o.video_len o.video_decoded o.video_picture_size := by
  simp [tsmf_ffmpeg_decode, hv]

/-- `tsmf_ffmpeg_decode` on an audio decoder runs the audio path. -/
lemma ffmpeg_decode_audio_dispatch (m : TSMFFFmpegDecoder)
    (o : LibavOracle) (ds : Nat) (ha : m.media_type = AVMEDIA_TYPE_AUDIO) :
    tsmf_ffmpeg_decode m o ds
      = tsmf_ffmpeg_decode_audio
          { m with decoded_data := none, decoded_size := 0 }
          ds o.audio_calls := by
  simp [tsmf_ffmpeg_decode, ha, AVMEDIA_TYPE_AUDIO, AVMEDIA_TYPE_VIDEO]

/-- Flushing a stream twice equals flushing it once. -/
lemma tsmf_stream_flush_idem (s : TSMF_STREAM) :
    tsmf_stream_flush (tsmf_stream_flush s) = tsmf_stream_flush s := by
  rw [tsmf_stream_flush_eq s, tsmf_stream_flush_eq]

/-- Flushing every stream twice equals flushing every stream once. -/
lemma map_stream_flush_idem (ss : List TSMF_STREAM) :
    List.map tsmf_stream_flush (List.map tsmf_stream_flush ss)
      = List.map tsmf_stream_flush ss := by
  induction ss with
  | nil => rfl
  | cons t ts ih => simp only [List.map_cons, tsmf_stream_flush_idem, ih]

/-! ### The claims -/

/-- C1: for every scheduler invocation in which the earliest stream is
an audio stream, the scheduler pops that stream's head sample
unconditionally, unless an audio sink is attached whose reported
queued-sample count is at least 10 — in which case it pops nothing and
returns no sample this tick. -/
theorem C1_audio_lookahead (p : TSMF_PRESENTATION) (i : Nat)
    (es : TSMF_STREAM)
    (h1 : earliestIdx p.streams = some i)
    (h2 : p.streams[i]? = some es)
    (h3 : es.major_type = TSMF_MAJOR_TYPE_AUDIO) :
    (∀ a, p.audio = some a → 10 ≤ a.queueLength →
      tsmf_presentation_pop_sample p = (none, p)) ∧
    ((p.audio = none ∨ ∃ a, p.audio = some a ∧ a.queueLength < 10) →
      (tsmf_presentation_pop_sample p).1 = es.sample_queue.head?) := by
  constructor
  · intro a ha hq
    exact pop_blocked p i es h1 h2
      (schedulerPops_audio_blocked p (hasPendingStream p.streams) es a h3 ha hq)
  · intro ha
    exact pop_at_earliest p i es h1 h2
      (schedulerPops_audio_free p (hasPendingStream p.streams) es h3 ha)

/-- Witness for C1: with a sink holding 12 samples the scheduler pops
nothing and changes nothing; with a sink holding 3 samples it pops the
audio head sample. -/
theorem C1_audio_lookahead_witness :
    tsmf_presentation_pop_sample wPresBlocked = (none, wPresBlocked) ∧
    (tsmf_presentation_pop_sample wPresFree).1
      = wAudioStream.sample_queue.head? :=
  ⟨(C1_audio_lookahead wPresBlocked 0 wAudioStream rfl rfl rfl).1 ⟨12⟩ rfl
      (by decide),
   (C1_audio_lookahead wPresFree 0 wAudioStream rfl rfl rfl).2
      (Or.inr ⟨⟨3⟩, rfl, by decide⟩)⟩

/-- C2: for every scheduler invocation in which the earliest stream is
non-audio, its head sample is popped if and only if no stream is
pending, or playback has not started (`playback_time = 0`), or the
playback time has reached the head sample's `start_time`; since a
stream that reached end-of-stream is not pending, an end-of-stream
signal on the other stream unblocks the pop. -/
theorem C2_nonaudio_gating (p : TSMF_PRESENTATION) (i : Nat)
    (es : TSMF_STREAM) (hs : TSMF_SAMPLE)
    (h1 : earliestIdx p.streams = some i)
    (h2 : p.streams[i]? = some es)
    (h3 : es.major_type ≠ TSMF_MAJOR_TYPE_AUDIO)
    (h4 : es.sample_queue.head? = some hs) :
    ((tsmf_presentation_pop_sample p).1 = some hs ↔
      (hasPendingStream p.streams = false ∨ p.playback_time = 0 ∨
        hs.start_time ≤ p.playback_time)) := by
  obtain ⟨rest, hrest⟩ : ∃ rest, es.sample_queue = hs :: rest := by
    cases hsq : es.sample_queue with
    | nil => rw [hsq] at h4; cases h4
    | cons x r =>
      rw [hsq] at h4
      have hx : x = hs := by simpa using h4
      exact ⟨r, by rw [hx]⟩

  have hsp := schedulerPops_nonaudio p (hasPendingStream p.streams) es hs rest h3 hrest
  rcases Bool.eq_false_or_eq_true (!hasPendingStream p.streams
      || decide (p.playback_time = 0)
      || decide (p.playback_time ≥ hs.start_time)) with hb | hb
  · have hpop := pop_at_earliest p i es h1 h2 (hsp.trans hb)
    rw [hpop, h4]
    apply iff_of_true rfl
    simp only [Bool.or_eq_true, Bool.not_eq_true', decide_eq_true_eq] at hb
    rcases hb with (hb | hb) | hb
    · exact Or.inl hb
    · exact Or.inr (Or.inl hb)
    · exact Or.inr (Or.inr (by omega))
  · have hpop := pop_blocked p i es h1 h2 (hsp.trans hb)
    rw [hpop]
    simp only [Bool.or_eq_false_iff, Bool.not_eq_false', decide_eq_false_iff_not] at hb
    apply iff_of_false
    · simp
    · push_neg
      refine ⟨by simp [hb.1.1], hb.1.2, ?_⟩
      have := hb.2
      omega

/-- Witness for C2: in a state with a pending audio stream, playback
time 3 and a video head sample starting at 5, the popped-iff-eligible
equivalence holds at the concrete state. -/
theorem C2_nonaudio_gating_witness :
    ((tsmf_presentation_pop_sample wPresVideo).1 = some wVideoSample ↔
      (hasPendingStream wPresVideo.streams = false ∨
        wPresVideo.playback_time = 0 ∨
        wVideoSample.start_time ≤ wPresVideo.playback_time)) :=
  C2_nonaudio_gating wPresVideo 1 wVideoStream wVideoSample rfl rfl
    (by decide) rfl

/-- C3: across any sequence of scheduler invocations `playback_time`
is non-decreasing; an invocation that pops a sample sets it to the
maximum of its old value and the sample's `end_time`, and an
invocation that pops nothing leaves it unchanged. -/
theorem C3_playback_time_monotone (p : TSMF_PRESENTATION) :
    (∀ s, (tsmf_presentation_pop_sample p).1 = some s →
      (tsmf_presentation_pop_sample p).2.playback_time
        = max p.playback_time s.end_time) ∧
    ((tsmf_presentation_pop_sample p).1 = none →
      (tsmf_presentation_pop_sample p).2.playback_time = p.playback_time) ∧
    (∀ n, p.playback_time ≤ (popIter n p).playback_time) := by
  refine ⟨?_, ?_, ?_⟩
  · intro s hs
    rcases pop_sample_playback_spec p with ⟨h1, _⟩ | ⟨t, h1, h2⟩
    · rw [h1] at hs; cases hs
    · rw [h1, Option.some.injEq] at hs
      rw [hs] at h2
      rw [h2]
      split <;> omega
  · intro h
    rcases pop_sample_playback_spec p with ⟨_, h2⟩ | ⟨t, h1, _⟩
    · exact h2
    · rw [h1] at h; cases h
  · intro n
    induction n generalizing p with
    | zero => exact Nat.le_refl _
    | succ n ih =>
      exact Nat.le_trans (pop_sample_playback_mono p)
        (ih (tsmf_presentation_pop_sample p).2)

/-- Witness for C3: popping the queued audio sample advances playback
time to its end time, and three scheduler ticks never decrease it. -/
theorem C3_playback_time_monotone_witness :
    (tsmf_presentation_pop_sample wPresFree).2.playback_time
      = max wPresFree.playback_time wAudioSample.end_time ∧
    wPresFree.playback_time ≤ (popIter 3 wPresFree).playback_time :=
  ⟨(C3_playback_time_monotone wPresFree).1 wAudioSample rfl,
   (C3_playback_time_monotone wPresFree).2.2 3⟩

/-- C4: creating a presentation with a GUID already in the registry,
or a stream with an id already in the presentation, fails (returns no
new object) and leaves the registry, the existing presentation, its
stream list and all sample queues unchanged. -/
theorem C4_duplicate_id_rejection (registry : List TSMF_PRESENTATION)
    (guid : List Nat) (cb : Nat) (p : TSMF_PRESENTATION) (sid : Nat) :
    ((tsmf_presentation_find_by_id registry guid).isSome = true →
      tsmf_presentation_new registry guid cb = (none, registry)) ∧
    ((tsmf_stream_find_by_id p sid).isSome = true →
      tsmf_stream_new p sid = (none, p)) := by
  constructor
  · intro h
    unfold tsmf_presentation_new
    cases hf : tsmf_presentation_find_by_id registry guid with
    | none => rw [hf] at h; cases h
    | some q => rfl
  · intro h
    unfold tsmf_stream_new
    cases hf : tsmf_stream_find_by_id p sid with
    | none => rw [hf] at h; cases h
    | some q => rfl

/-- Witness for C4: re-creating GUID `[1, 2]` and stream id 2 both
fail and leave the registry and presentation unchanged. -/
theorem C4_duplicate_id_rejection_witness :
    tsmf_presentation_new wRegistry [1, 2] 0 = (none, wRegistry) ∧
    tsmf_stream_new wPresWithStream 2 = (none, wPresWithStream) :=
  ⟨(C4_duplicate_id_rejection wRegistry [1, 2] 0 wPresWithStream 2).1 rfl,
   (C4_duplicate_id_rejection wRegistry [1, 2] 0 wPresWithStream 2).2 rfl⟩

/-- C5: a push with no decoder attached, or whose decode step fails,
returns with the stream (and so its queue) unchanged and surfaces no
error; a push whose decode succeeds appends exactly one new sample
carrying the buffer taken from the decoder at the queue tail. -/
theorem C5_push_drop_or_append (stream : TSMF_STREAM)
    (cb sample_id start_time end_time duration extensions : Nat)
    (data : List Nat) :
    (stream.decoder = none →
      tsmf_stream_push_sample stream cb sample_id start_time end_time
        duration extensions data = stream) ∧
    (∀ d, stream.decoder = some d → d.Decode data extensions ≠ 0 →
      tsmf_stream_push_sample stream cb sample_id start_time end_time
        duration extensions data = stream) ∧
    (∀ d, stream.decoder = some d → d.Decode data extensions = 0 →
      (tsmf_stream_push_sample stream cb sample_id start_time end_time
          duration extensions data).sample_queue
        = stream.sample_queue
          ++ [pushedSample stream d cb sample_id start_time end_time
              duration]) := by
  refine ⟨?_, ?_, ?_⟩
  · intro h
    unfold tsmf_stream_push_sample
    rw [h]
    simp
  · intro d hd hne
    unfold tsmf_stream_push_sample
    rw [hd]
    simp [hne]
  · intro d hd hok
    rw [push_sample_success_eq stream d cb sample_id start_time end_time
      duration extensions data hd hok]

/-- Witness for C5: the no-decoder and failing-decode pushes leave the
streams unchanged; the successful push appends one decoded sample. -/
theorem C5_push_drop_or_append_witness :
    tsmf_stream_push_sample wStreamNoDec 0 1 2 3 4 0 [1] = wStreamNoDec ∧
    tsmf_stream_push_sample wStreamFail 0 1 2 3 4 0 [1] = wStreamFail ∧
    (tsmf_stream_push_sample wStreamOk 0 1 2 3 4 0 [1]).sample_queue
      = wStreamOk.sample_queue
        ++ [pushedSample wStreamOk wDecoderOk 0 1 2 3 4] :=
  ⟨(C5_push_drop_or_append wStreamNoDec 0 1 2 3 4 0 [1]).1 rfl,
   (C5_push_drop_or_append wStreamFail 0 1 2 3 4 0 [1]).2.1 wDecoderFail rfl
     (by decide),
   (C5_push_drop_or_append wStreamOk 0 1 2 3 4 0 [1]).2.2 wDecoderOk rfl rfl⟩

/-- C6: for every sequence of successful pushes on one stream starting
from an empty queue, successive pops return exactly the pushed samples
in push order (strict FIFO), and the popped `start_time` sequence is
non-decreasing whenever the pushed `start_time`s were. -/
theorem C6_fifo_order (d : ITSMFDecoder) (ps : List PushArgs)
    (s : TSMF_STREAM)
    (h0 : s.sample_queue = []) (h1 : s.decoder = some d)
    (h2 : ∀ a ∈ ps, d.Decode a.data a.extensions = 0) :
    popAll (pushSeq s ps)
      = ps.map (fun a => pushedSample s d a.cb a.sample_id a.start_time
          a.end_time a.duration) ∧
    (List.Chain' (fun u v => u ≤ v) (ps.map (fun a => a.start_time)) →
      List.Chain' (fun u v => u ≤ v)
        ((popAll (pushSeq s ps)).map (fun t => t.start_time))) := by
  have hq := pushSeq_spec d ps s h1 h2
  have hpop : popAll (pushSeq s ps)
      = ps.map (fun a => pushedSample s d a.cb a.sample_id a.start_time
          a.end_time a.duration) := by
    rw [popAll_eq_queue, hq]
    simp [h0]
  refine ⟨hpop, ?_⟩
  intro hchain
  rw [hpop, List.map_map]
  have hcomp : ((fun t : TSMF_SAMPLE => t.start_time)
      ∘ (fun a : PushArgs => pushedSample s d a.cb a.sample_id a.start_time
          a.end_time a.duration)) = fun a : PushArgs => a.start_time :=
    funext (fun a => rfl)
  rw [hcomp]
  exact hchain

/-- Witness for C6: pushing two units and popping returns them in push
order with non-decreasing `start_time`s. -/
theorem C6_fifo_order_witness :
    popAll (pushSeq wStreamOk [wPushA, wPushB])
      = [wPushA, wPushB].map (fun a => pushedSample wStreamOk wDecoderOk
          a.cb a.sample_id a.start_time a.end_time a.duration) ∧
    List.Chain' (fun u v => u ≤ v)
      ((popAll (pushSeq wStreamOk [wPushA, wPushB])).map
        (fun t => t.start_time)) :=
  ⟨(C6_fifo_order wDecoderOk [wPushA, wPushB] wStreamOk rfl rfl
      (fun _ _ => rfl)).1,
   (C6_fifo_order wDecoderOk [wPushA, wPushB] wStreamOk rfl rfl
      (fun _ _ => rfl)).2 (by simp [wPushA, wPushB])⟩

/-- C7 counterexample: on the audio path a decode call reports success
(return 0) even when no unit was decoded — here a failing first
library call — and the immediately following `GetDecodedData` returns
the empty `(NULL, 0)` buffer, refuting "ok implies a decoded unit is
retrievable". -/
theorem C7_decode_ok_counterexample :
    (tsmf_ffmpeg_decode wFFmpegAudio wOracleFail 4).1 = 0 ∧
    (tsmf_ffmpeg_get_decoded_data
        (tsmf_ffmpeg_decode wFFmpegAudio wOracleFail 4).2).1 = (none, 0) :=
  ⟨rfl, rfl⟩

/-- C7 (amended): on the video decode path, a success return with a
positive reported picture size implies the following `GetDecodedData`
returns a non-empty buffer; the audio decode path instead returns
success unconditionally, so success does not imply retrievability
there. -/
theorem C7_decode_ok_retrievable_amended (m : TSMFFFmpegDecoder)
    (o : LibavOracle) (data_size : Nat) :
    (m.media_type = AVMEDIA_TYPE_VIDEO →
      (tsmf_ffmpeg_decode m o data_size).1 = 0 →
      0 < o.video_picture_size →
      ((tsmf_ffmpeg_get_decoded_data
          (tsmf_ffmpeg_decode m o data_size).2).1.1.isSome = true ∧
        0 < (tsmf_ffmpeg_get_decoded_data
          (tsmf_ffmpeg_decode m o data_size).2).1.2)) ∧
    (m.media_type = AVMEDIA_TYPE_AUDIO →
      (tsmf_ffmpeg_decode m o data_size).1 = 0) := by
  constructor
  · intro hv hok hpos
    rw [ffmpeg_decode_video_dispatch m o data_size hv] at hok ⊢
    rw [decode_video_ok _ _ _ _ hok]
    exact ⟨rfl, hpos⟩
  · intro ha
    rw [ffmpeg_decode_audio_dispatch m o data_size ha]
    exact decode_audio_ret _ _ _

/-- Witness for C7 (amended): the concrete successful video decode
yields a retrievable 100-byte unit, and the concrete failing audio
decode still reports success. -/
theorem C7_decode_ok_retrievable_witness :
    ((tsmf_ffmpeg_get_decoded_data
        (tsmf_ffmpeg_decode wFFmpegVideo wOracleOk 5).2).1.1.isSome = true ∧
      0 < (tsmf_ffmpeg_get_decoded_data
        (tsmf_ffmpeg_decode wFFmpegVideo wOracleOk 5).2).1.2) ∧
    (tsmf_ffmpeg_decode wFFmpegAudio wOracleFail 4).1 = 0 :=
  ⟨(C7_decode_ok_retrievable_amended wFFmpegVideo wOracleOk 5).1 rfl rfl
      (by decide),
   (C7_decode_ok_retrievable_amended wFFmpegAudio wOracleFail 4).2 rfl⟩

/-- C8: one presentation flush leaves every stream's queue empty and
every stream's eos flag cleared, and flushing again is a no-op — flush
composed with flush equals flush, so the second call succeeds and all
queues stay empty. -/
theorem C8_flush_idempotent (p : TSMF_PRESENTATION) :
    (∀ s ∈ (tsmf_presentation_flush p).streams,
      s.sample_queue = [] ∧ s.eos = false) ∧
    tsmf_presentation_flush (tsmf_presentation_flush p)
      = tsmf_presentation_flush p := by
  constructor
  · intro s hsmem
    simp only [tsmf_presentation_flush] at hsmem
    rcases List.mem_map.mp hsmem with ⟨t, _, rfl⟩
    rw [tsmf_stream_flush_eq]
    exact ⟨rfl, rfl⟩
  · simp only [tsmf_presentation_flush]
    rw [map_stream_flush_idem]

/-- Witness for C8: flushing the concrete two-stream presentation
empties and un-ends the video stream, and a second flush is a no-op. -/
theorem C8_flush_idempotent_witness :
    ((tsmf_stream_flush wVideoStream).sample_queue = [] ∧
      (tsmf_stream_flush wVideoStream).eos = false) ∧
    tsmf_presentation_flush (tsmf_presentation_flush wPresVideo)
      = tsmf_presentation_flush wPresVideo :=
  ⟨(C8_flush_idempotent wPresVideo).1 (tsmf_stream_flush wVideoStream)
      (List.mem_map_of_mem tsmf_stream_flush
        (List.mem_cons_of_mem _ (List.mem_cons_self _ _))),
   (C8_flush_idempotent wPresVideo).2⟩

/-- C9 counterexample: with no previously delivered frame
(`last = (0,0,0,0)`) and target region `(0,0,4,4)`, the regions differ
in a coordinate and the sample carries a payload, yet the dispatch
emits no redraw-previous-region notification — refuting the claimed
"if and only if the regions differ". -/
theorem C9_video_redraw_counterexample :
    regionChanged cPres9 = true ∧
    cSample9.data.isSome = true ∧
    (tsmf_sample_playback_video cSample9 wVideoStream cPres9).1.all
      (fun e => !eventIsRedraw e) = true :=
  ⟨rfl, rfl, rfl⟩

/-- C9 (amended): for a payload-carrying video sample, the redraw
notification precedes the frame notification exactly when the
last-delivered region differs from the target region and a frame had
actually been delivered (nonzero last width and height); after
dispatch the last-delivered region equals the target region and the
sample's payload reference is cleared; with no payload nothing is
emitted and nothing changes. -/
theorem C9_video_dispatch_amended (sample : TSMF_SAMPLE)
    (stream : TSMF_STREAM) (p : TSMF_PRESENTATION) :
    (sample.data = none →
      tsmf_sample_playback_video sample stream p = ([], p, sample)) ∧
    (∀ d, sample.data = some d →
      tsmf_sample_playback_video sample stream p
        = ((if regionChanged p && (p.last_width != 0) && (p.last_height != 0)
            then [RD_EVENT.redraw p.last_x p.last_y p.last_width
                p.last_height]
            else [])
            ++ [RD_EVENT.video_frame d sample.data_size RD_PIXFMT_I420
                stream.width stream.height p.output_x p.output_y
                p.output_width p.output_height],
          { p with
            last_x := p.output_x
            last_y := p.output_y
            last_width := p.output_width
            last_height := p.output_height },
          { sample with data := none, data_size := 0 })) := by
  constructor
  · intro h
    unfold tsmf_sample_playback_video
    rw [h]
  · intro d hd
    unfold tsmf_sample_playback_video
    rw [hd]
    dsimp only
    cases hrc : regionChanged p with
    | false => simp [hrc]
    | true =>
      unfold tsmf_presentation_restore_last_video_frame
      by_cases hlw : p.last_width ≠ 0 ∧ p.last_height ≠ 0
      · rw [if_pos hlw]
        simp [bne_iff_ne, hlw.1, hlw.2]
      · rw [if_neg hlw]
        rcases not_and_or.mp hlw with h0 | h0 <;>
          simp [not_not.mp h0]

/-- Witness for C9 (amended): a payload-less sample dispatches to
nothing, and a payload-carrying sample after a previously delivered
(2, 2)-sized frame emits redraw then frame and records the target
region. -/
theorem C9_video_dispatch_amended_witness :
    tsmf_sample_playback_video { cSample9 with data := none }
        wVideoStream cPres9
      = ([], cPres9, { cSample9 with data := none }) ∧
    tsmf_sample_playback_video cSample9 wVideoStream cPres9'
      = ((if regionChanged cPres9' && (cPres9'.last_width != 0)
            && (cPres9'.last_height != 0)
          then [RD_EVENT.redraw cPres9'.last_x cPres9'.last_y
              cPres9'.last_width cPres9'.last_height]
          else [])
          ++ [RD_EVENT.video_frame [1, 2, 3] cSample9.data_size
              RD_PIXFMT_I420 wVideoStream.width wVideoStream.height
              cPres9'.output_x cPres9'.output_y cPres9'.output_width
              cPres9'.output_height],
        { cPres9' with
          last_x := cPres9'.output_x
          last_y := cPres9'.output_y
          last_width := cPres9'.output_width
          last_height := cPres9'.output_height },
        { cSample9 with data := none, data_size := 0 }) :=
  ⟨(C9_video_dispatch_amended { cSample9 with data := none }
      wVideoStream cPres9).1 rfl,
   (C9_video_dispatch_amended cSample9 wVideoStream cPres9').2
      [1, 2, 3] rfl⟩

/-- C10: every presentation-level flush unconditionally clears the
presentation's own eos flag as well as each stream's, so after a flush
the presentation is never in end-of-stream state — even immediately
after a stream signalled end-of-stream. -/
theorem C10_flush_clears_presentation_eos (p : TSMF_PRESENTATION)
    (sid : Nat) :
    (tsmf_presentation_flush p).eos = false ∧
    (∀ s ∈ (tsmf_presentation_flush p).streams, s.eos = false) ∧
    (tsmf_presentation_flush (tsmf_stream_end p sid)).eos = false := by
  refine ⟨rfl, ?_, rfl⟩
  intro s hsmem
  simp only [tsmf_presentation_flush] at hsmem
  rcases List.mem_map.mp hsmem with ⟨t, _, rfl⟩
  rw [tsmf_stream_flush_eq]

/-- Witness for C10: flushing right after stream 2 signalled
end-of-stream leaves the concrete presentation's eos flag clear, and
its video stream's eos flag clear. -/
theorem C10_flush_clears_presentation_eos_witness :
    (tsmf_presentation_flush (tsmf_stream_end wPresVideo 2)).eos = false ∧
    (tsmf_stream_flush wVideoStream).eos = false :=
  ⟨(C10_flush_clears_presentation_eos wPresVideo 2).2.2,
   (C10_flush_clears_presentation_eos wPresVideo 2).2.1
      (tsmf_stream_flush wVideoStream)
      (List.mem_map_of_mem tsmf_stream_flush
        (List.mem_cons_of_mem _ (List.mem_cons_self _ _)))⟩

end TSMF
